import Mathlib

/-! Shallow embedding of the TinySTL core (MyTinySTL/util.h, allocator.h,
type_traits.h): the two-slot pair value type with its comparison operators,
assignment and swap; the Boolean enablement conditions of the pair
constructor dispatch rules; the is_pair capability predicate over a small
universe of type expressions; and the typed allocator over an explicit
heap-interaction state that records every request made to the underlying
system allocator (operator new / operator delete), with the byte count
computed in size_t arithmetic. -/

namespace mystl

/-- The struct template `mystl::pair<Ty1, Ty2>` (util.h lines 69-246):
two data members, `first` of the first type and `second` of the second. -/
structure pair (α β : Type) where
  first : α
  second : β

/-- Operator `==` on pairs (util.h lines 249-253):
`lhs.first == rhs.first && lhs.second == rhs.second`, where the element
comparisons are those of the element types; they are passed here as the
functions `eqa` and `eqb`, and `&&` is the short-circuit conjunction. -/
def pairEqOp (eqa : α → α → Bool) (eqb : β → β → Bool) (lhs rhs : pair α β) : Bool :=
  eqa lhs.first rhs.first && eqb lhs.second rhs.second

/-- Operator `<` on pairs (util.h lines 255-259):
`lhs.first < rhs.first || (lhs.first == rhs.first && lhs.second < rhs.second)`. -/
def pairLtOp (lta eqa : α → α → Bool) (ltb : β → β → Bool) (lhs rhs : pair α β) : Bool :=
  lta lhs.first rhs.first || (eqa lhs.first rhs.first && ltb lhs.second rhs.second)

/-- Operator `!=` on pairs (util.h lines 261-265): `!(lhs == rhs)`. -/
def pairNeOp (eqa : α → α → Bool) (eqb : β → β → Bool) (lhs rhs : pair α β) : Bool :=
  !(pairEqOp eqa eqb lhs rhs)

/-- Operator `>` on pairs (util.h lines 267-271): `rhs < lhs`. -/
def pairGtOp (lta eqa : α → α → Bool) (ltb : β → β → Bool) (lhs rhs : pair α β) : Bool :=
  pairLtOp lta eqa ltb rhs lhs

/-- Operator `<=` on pairs (util.h lines 273-277): `!(rhs < lhs)`. -/
def pairLeOp (lta eqa : α → α → Bool) (ltb : β → β → Bool) (lhs rhs : pair α β) : Bool :=
  !(pairLtOp lta eqa ltb rhs lhs)

/-- Operator `>=` on pairs (util.h lines 279-283): `!(lhs < rhs)`. -/
def pairGeOp (lta eqa : α → α → Bool) (ltb : β → β → Bool) (lhs rhs : pair α β) : Bool :=
  !(pairLtOp lta eqa ltb lhs rhs)

/-- The global `mystl::make_pair` (util.h lines 293-297): builds a
`pair<Ty1, Ty2>` from the two forwarded arguments; at the value level
forwarding is the identity, so the two values are stored unchanged. -/
def make_pair (x : α) (y : β) : pair α β :=
  pair.mk x y

end mystl

namespace mystl

/-- Enablement condition of the implicit same-type constructor
`pair(const Ty1&, const Ty2&)` (util.h lines 89-98):
`is_copy_constructible<U1> && is_copy_constructible<U2> &&
is_convertible<const U1&, Ty1> && is_convertible<const U2&, Ty2>`,
with the four trait queries abstracted as the Booleans
`cc1 cc2 cv1 cv2`. -/
def pairCtorSameImplicit (cc1 cc2 cv1 cv2 : Bool) : Bool :=
  cc1 && cc2 && cv1 && cv2

/-- Enablement condition of the explicit same-type constructor
(util.h lines 103-112): both copy-constructible and
`(!is_convertible<const U1&, Ty1> || !is_convertible<const U2&, Ty2>)`. -/
def pairCtorSameExplicit (cc1 cc2 cv1 cv2 : Bool) : Bool :=
  cc1 && cc2 && (!cv1 || !cv2)

/-- Enablement condition of the implicit cross-type forwarding constructor
`pair(Other1&&, Other2&&)` (util.h lines 118-128):
`is_constructible<Ty1, Other1> && is_constructible<Ty2, Other2> &&
is_convertible<Other1&&, Ty1> && is_convertible<Other2&&, Ty2>`. -/
def pairCtorFwdImplicit (ct1 ct2 cv1 cv2 : Bool) : Bool :=
  ct1 && ct2 && cv1 && cv2

/-- Enablement condition of the explicit cross-type forwarding constructor
(util.h lines 131-141): both constructible and at least one conversion not
implicit. -/
def pairCtorFwdExplicit (ct1 ct2 cv1 cv2 : Bool) : Bool :=
  ct1 && ct2 && (!cv1 || !cv2)

/-- Enablement condition of the implicit converting constructor from
`const pair<Other1, Other2>&` (util.h lines 144-154). -/
def pairCtorCrossLvalImplicit (ct1 ct2 cv1 cv2 : Bool) : Bool :=
  ct1 && ct2 && cv1 && cv2

/-- Enablement condition of the explicit converting constructor from
`const pair<Other1, Other2>&` (util.h lines 157-167). -/
def pairCtorCrossLvalExplicit (ct1 ct2 cv1 cv2 : Bool) : Bool :=
  ct1 && ct2 && (!cv1 || !cv2)

/-- Enablement condition of the implicit converting constructor from
`pair<Other1, Other2>&&` (util.h lines 170-180). -/
def pairCtorCrossRvalImplicit (ct1 ct2 cv1 cv2 : Bool) : Bool :=
  ct1 && ct2 && cv1 && cv2

/-- Enablement condition of the explicit converting constructor from
`pair<Other1, Other2>&&` (util.h lines 183-193). -/
def pairCtorCrossRvalExplicit (ct1 ct2 cv1 cv2 : Bool) : Bool :=
  ct1 && ct2 && (!cv1 || !cv2)

/-- One element mutation performed on a pair by an assignment operator or
by `pair::swap`: which slot was written, and by which kind of operation. -/
inductive PairMut where
  | writeFirst
  | writeSecond
  | moveFirst
  | moveSecond
  | swapFirst
  | swapSecond

/-- Copy assignment `pair::operator=(const pair&)` (util.h lines 196-204):
`same` models the identity check `this == &rhs`; when the two objects are
distinct it copy-assigns `first` then `second`, otherwise it does nothing.
Returns the resulting value of `*this` together with the list of element
mutations performed, in order. -/
def pairCopyAssign (same : Bool) (self rhs : pair α β) : pair α β × List PairMut :=
  if same then (self, [])
  else (pair.mk rhs.first rhs.second, [PairMut.writeFirst, PairMut.writeSecond])

/-- Move assignment `pair::operator=(pair&&)` (util.h lines 207-215):
guarded by the same identity check; when distinct it move-assigns `first`
then `second` (a move transfers the value at this level of modelling). -/
def pairMoveAssign (same : Bool) (self rhs : pair α β) : pair α β × List PairMut :=
  if same then (self, [])
  else (pair.mk rhs.first rhs.second, [PairMut.moveFirst, PairMut.moveSecond])

/-- Member `pair::swap` (util.h lines 237-244): guarded by the identity
check `this == &other` (modelled by `same`); when distinct it swaps the
`first` slots and then the `second` slots. Returns the resulting values of
`*this` and `other` with the mutation trace. -/
def pairSwap (same : Bool) (self other : pair α β) :
    (pair α β × pair α β) × List PairMut :=
  if same then ((self, other), [])
  else ((pair.mk other.first other.second, pair.mk self.first self.second),
        [PairMut.swapFirst, PairMut.swapSecond])

end mystl

namespace mystl

/-- A small closed universe of C++ type expressions, rich enough to state
what `is_pair` does: scalar types, instantiations `mystl::pair<T1, T2>`,
and a struct shape that has `.first`/`.second` members without being an
instantiation of `mystl::pair`. -/
inductive CType where
  | intT
  | doubleT
  | pairT (t1 t2 : CType)
  | recordWithFirstSecond (t1 t2 : CType)

/-- The capability predicate `mystl::is_pair` (type_traits.h lines 38-42):
the primary template inherits from `m_false_type`, and the single partial
specialization `is_pair<mystl::pair<T1, T2>>` inherits from `m_true_type`. -/
def is_pair : CType → Bool
  | CType.pairT _ _ => true
  | _ => false

/-- State of the underlying system allocator as observed through
`::operator new` and `::operator delete`: a fresh-address counter, the list
of byte counts requested from `operator new`, and the list of addresses
passed to `operator delete`, both in call order. -/
structure HeapState where
  nextAddr : Nat
  newRequests : List Nat
  deleteCalls : List Nat

/-- A call into `::operator new(bytes)`: returns a fresh address and
records the request. -/
def operatorNew (bytes : Nat) (st : HeapState) : Nat × HeapState :=
  (st.nextAddr,
   HeapState.mk (st.nextAddr + bytes + 1) (st.newRequests ++ [bytes]) st.deleteCalls)

/-- A call into `::operator delete(addr)`: records the release. -/
def operatorDelete (addr : Nat) (st : HeapState) : HeapState :=
  HeapState.mk st.nextAddr st.newRequests (st.deleteCalls ++ [addr])

/-- Bit width of `size_t` on the modelled LP64 platform. -/
def sizeTWidth : Nat := 64

/-- `SIZE_MAX`, the largest value of `size_t`. -/
def sizeTMax : Nat := 2 ^ sizeTWidth - 1

/-- `allocator<T>::allocate(size_type n)` (allocator.h lines 52-58): if
`n == 0` it returns `nullptr` (modelled as `none`) without touching the
heap; otherwise it calls `::operator new(n * sizeof(T))`, the byte count
being the product `n * sizeof(T)` computed in `size_t` arithmetic, i.e.
reduced modulo `2 ^ sizeTWidth`. `sz` stands for `sizeof(T)`. -/
def allocate (sz n : Nat) (st : HeapState) : Option Nat × HeapState :=
  if n = 0 then (none, st)
  else
    let bytes := n * sz % 2 ^ sizeTWidth
    let r := operatorNew bytes st
    (some r.1, r.2)

/-- `allocator<T>::deallocate(T* ptr)` (allocator.h lines 61-67): if `ptr`
is null it returns immediately; otherwise it calls `::operator delete`. -/
def deallocate (ptr : Option Nat) (st : HeapState) : HeapState :=
  match ptr with
  | none => st
  | some p => operatorDelete p st

/-- `allocator<T>::deallocate(T* ptr, size_type)` (allocator.h lines
70-76): the count parameter is ignored by the body; if `ptr` is null it
returns immediately, otherwise it calls `::operator delete`. -/
def deallocateN (ptr : Option Nat) (n : Nat) (st : HeapState) : HeapState :=
  match ptr with
  | none => st
  | some p => operatorDelete p st

end mystl

namespace mystl

/-- C1: for every assignment of the compile-time capability flags, each of
the four implicit/explicit families of pair constructor dispatch rules
(same-type, cross-type forwarding, cross-pair from lvalue, cross-pair from
rvalue) has pairwise disjoint enablement conditions — the implicit and
explicit rules of a family are never both enabled — and the implicit and
explicit conditions are exact complements of each other relative to the
family's shared constructibility precondition, so whenever that
precondition holds exactly one of the two rules of the family applies at
the call site. -/
theorem pair_ctor_rules_exclusive : ∀ c1 c2 v1 v2 : Bool,
    ((pairCtorSameImplicit c1 c2 v1 v2 && pairCtorSameExplicit c1 c2 v1 v2) = false
      ∧ (pairCtorSameImplicit c1 c2 v1 v2 || pairCtorSameExplicit c1 c2 v1 v2) = (c1 && c2))
    ∧ ((pairCtorFwdImplicit c1 c2 v1 v2 && pairCtorFwdExplicit c1 c2 v1 v2) = false
      ∧ (pairCtorFwdImplicit c1 c2 v1 v2 || pairCtorFwdExplicit c1 c2 v1 v2) = (c1 && c2))
    ∧ ((pairCtorCrossLvalImplicit c1 c2 v1 v2 && pairCtorCrossLvalExplicit c1 c2 v1 v2) = false
      ∧ (pairCtorCrossLvalImplicit c1 c2 v1 v2 || pairCtorCrossLvalExplicit c1 c2 v1 v2)
          = (c1 && c2))
    ∧ ((pairCtorCrossRvalImplicit c1 c2 v1 v2 && pairCtorCrossRvalExplicit c1 c2 v1 v2) = false
      ∧ (pairCtorCrossRvalImplicit c1 c2 v1 v2 || pairCtorCrossRvalExplicit c1 c2 v1 v2)
          = (c1 && c2)) := by
  decide

/-- C2: pair equality holds exactly when both element comparisons hold; it
is short-circuit in the second comparison (when the first elements differ
the result does not depend on the second-element comparison at all); pair
less-than is the lexicographic order, holding exactly when the first
elements compare less, or compare equal and the second elements compare
less; and on the concrete example the first element takes precedence:
pair (2, "a") < pair (1, "z") is false. -/
theorem pair_eq_lt_spec {α β : Type} (eqa lta : α → α → Bool)
    (eqb eqb' ltb : β → β → Bool) (l r : pair α β) :
    (pairEqOp eqa eqb l r = true
      ↔ (eqa l.first r.first = true ∧ eqb l.second r.second = true))
    ∧ (eqa l.first r.first = false → pairEqOp eqa eqb l r = pairEqOp eqa eqb' l r)
    ∧ (pairLtOp lta eqa ltb l r = true
      ↔ (lta l.first r.first = true
          ∨ (eqa l.first r.first = true ∧ ltb l.second r.second = true)))
    ∧ pairLtOp (fun a b : Nat => decide (a < b)) (fun a b : Nat => a == b)
        (fun a b : String => decide (a < b))
        (pair.mk 2 "a") (pair.mk 1 "z") = false := by
  refine ⟨?_, ?_, ?_, ?_⟩
  · simp [pairEqOp]
  · intro h
    simp [pairEqOp, h]
  · simp [pairLtOp]
  · rfl

/-- C2 witness: a concrete instance of the short-circuit clause, with the
hypothesis discharged at `pair.mk 2 5` versus `pair.mk 1 5`. -/
theorem pair_eq_lt_spec_witness :
    ((fun a b : Nat => a == b) 2 1 = false)
    ∧ pairEqOp (fun a b : Nat => a == b) (fun a b : Nat => a == b)
        (pair.mk 2 5) (pair.mk 1 5)
      = pairEqOp (fun a b : Nat => a == b) (fun _ _ : Nat => true)
        (pair.mk 2 5) (pair.mk 1 5) :=
  ⟨by decide,
   (pair_eq_lt_spec (fun a b : Nat => a == b) (fun a b : Nat => decide (a < b))
      (fun a b : Nat => a == b) (fun _ _ : Nat => true) (fun a b : Nat => decide (a < b))
      (pair.mk 2 5) (pair.mk 1 5)).2.1 (by decide)⟩

/-- C3: the relational operators !=, >, <=, >= on pairs are derived from
equality and less-than rather than implemented independently: for all
element comparison functions and all pairs, p != q equals !(p == q),
p > q equals q < p, p <= q equals !(q < p), and p >= q equals !(p < q). -/
theorem pair_derived_relops {α β : Type} (eqa lta : α → α → Bool)
    (eqb ltb : β → β → Bool) (l r : pair α β) :
    pairNeOp eqa eqb l r = !(pairEqOp eqa eqb l r)
    ∧ pairGtOp lta eqa ltb l r = pairLtOp lta eqa ltb r l
    ∧ pairLeOp lta eqa ltb l r = !(pairLtOp lta eqa ltb r l)
    ∧ pairGeOp lta eqa ltb l r = !(pairLtOp lta eqa ltb l r) :=
  ⟨rfl, rfl, rfl, rfl⟩

/-- C4: same-type copy and move assignment check identity before mutating
(the `same = true` branch, the only branch reachable by `p = p`, returns
the pair unchanged with an empty mutation trace, so nothing can be
corrupted or double-freed), and otherwise assign element-wise first then
second; likewise `p.swap(p)` takes the guarded branch and leaves the value
unchanged with no element mutation. -/
theorem pair_self_assign_swap_safe {α β : Type} (p q : pair α β) :
    pairCopyAssign true p p = (p, [])
    ∧ pairMoveAssign true p p = (p, [])
    ∧ pairSwap true p p = ((p, p), [])
    ∧ pairCopyAssign false p q
        = (pair.mk q.first q.second, [PairMut.writeFirst, PairMut.writeSecond])
    ∧ pairMoveAssign false p q
        = (pair.mk q.first q.second, [PairMut.moveFirst, PairMut.moveSecond]) :=
  ⟨rfl, rfl, rfl, rfl, rfl⟩

/-- C6: deallocating a null pointer, through either overload, is a no-op:
the heap state is returned unchanged (nothing is released and no error is
signalled — both functions are total and return normally). -/
theorem deallocate_null_noop (st : HeapState) (n : Nat) :
    deallocate none st = st ∧ deallocateN none n st = st :=
  ⟨rfl, rfl⟩

/-- C7: the two-argument deallocate behaves identically to the one-argument
deallocate for every pointer, every count and every heap state: the count
argument has no effect on behavior. -/
theorem deallocateN_eq_deallocate (ptr : Option Nat) (n : Nat) (st : HeapState) :
    deallocateN ptr n st = deallocate ptr st := by
  cases ptr <;> rfl

/-- C8: is_pair is true exactly on instantiations of mystl::pair, and in
particular false on the record shape that has first/second members without
being the canonical pair. -/
theorem is_pair_iff (t : CType) :
    (is_pair t = true ↔ ∃ t1 t2, t = CType.pairT t1 t2)
    ∧ (∀ a b, is_pair (CType.recordWithFirstSecond a b) = false) := by
  constructor
  · constructor
    · intro h
      cases t with
      | pairT t1 t2 => exact ⟨t1, t2, rfl⟩
      | intT => exact absurd h (by simp [is_pair])
      | doubleT => exact absurd h (by simp [is_pair])
      | recordWithFirstSecond a b => exact absurd h (by simp [is_pair])
    · rintro ⟨t1, t2, rfl⟩
      rfl
  · intro a b
    rfl

/-- C8 witness: the predicate evaluated through the theorem at a concrete
pair instantiation and at the concrete non-pair record shape. -/
theorem is_pair_iff_witness :
    is_pair (CType.pairT CType.intT CType.doubleT) = true
    ∧ is_pair (CType.recordWithFirstSecond CType.intT CType.doubleT) = false :=
  ⟨(is_pair_iff (CType.pairT CType.intT CType.doubleT)).1.2
      ⟨CType.intT, CType.doubleT, rfl⟩,
   (is_pair_iff CType.intT).2 CType.intT CType.doubleT⟩

/-- C9: make_pair stores its two arguments unchanged into the first and
second slots of the returned pair. -/
theorem make_pair_roundtrip (α β : Type) (x : α) (y : β) :
    (make_pair x y).first = x ∧ (make_pair x y).second = y :=
  ⟨rfl, rfl⟩

/-- C5: allocate with count zero returns the null handle and leaves the
heap state untouched (no request reaches the system allocator), while for
any count n at least one a single request of n * sizeof(T) bytes — the
product taken in size_t arithmetic — is issued to operator new and a
non-null handle is returned; when the product does not exceed SIZE_MAX the
request is exactly n * sizeof(T) bytes, storage for n instances of T. -/
theorem allocate_spec (sz n : Nat) (st : HeapState) (hn : 1 ≤ n) :
    allocate sz 0 st = (none, st)
    ∧ (allocate sz n st).1 = some st.nextAddr
    ∧ (allocate sz n st).2.newRequests = st.newRequests ++ [n * sz % 2 ^ sizeTWidth]
    ∧ (n * sz ≤ sizeTMax
        → (allocate sz n st).2.newRequests = st.newRequests ++ [n * sz]) := by
  have hne : n ≠ 0 := Nat.one_le_iff_ne_zero.mp hn
  refine ⟨rfl, ?_, ?_, ?_⟩
  · simp [allocate, hne, operatorNew]
  · simp [allocate, hne, operatorNew]
  · intro h
    have hlt : n * sz < 2 ^ sizeTWidth := by
      have : sizeTMax < 2 ^ sizeTWidth := by
        simp [sizeTMax]
      omega
    simp [allocate, hne, operatorNew, Nat.mod_eq_of_lt hlt]

/-- C5 witness: the theorem applied at sizeof(T) = 4, n = 3 and the empty
heap, the count hypothesis discharged concretely. -/
theorem allocate_spec_witness :
    1 ≤ 3
    ∧ (allocate 4 3 (HeapState.mk 0 [] [])).2.newRequests
      = [] ++ [3 * 4 % 2 ^ sizeTWidth] :=
  ⟨by decide, (allocate_spec 4 3 (HeapState.mk 0 [] []) (by decide)).2.2.1⟩

/-- C10: allocate computes the byte count as n * sizeof(T) in unsigned
size_t arithmetic with no overflow check, so for every size_t count n
greater than SIZE_MAX / sizeof(T) the product wraps modulo 2 ^ 64 and the
request issued to the system allocator is for strictly fewer bytes than
the n * sizeof(T) bytes that n objects require. -/
theorem allocate_overflow_wraps (sz n : Nat) (st : HeapState)
    (hsz : 1 ≤ sz) (hn : n ≤ sizeTMax) (hov : sizeTMax / sz < n) :
    (allocate sz n st).2.newRequests = st.newRequests ++ [n * sz % 2 ^ sizeTWidth]
    ∧ n * sz % 2 ^ sizeTWidth < n * sz := by
  have hne : n ≠ 0 := by
    intro h
    subst h
    exact absurd hov (by simp)
  have hbig : sizeTMax < n * sz := (Nat.div_lt_iff_lt_mul hsz).mp hov
  have hpow : 0 < 2 ^ sizeTWidth := Nat.pos_pow_of_pos sizeTWidth (by decide)
  have hge : 2 ^ sizeTWidth ≤ n * sz := by
    have : sizeTMax + 1 = 2 ^ sizeTWidth := by
      have h1 : 1 ≤ 2 ^ sizeTWidth := Nat.one_le_two_pow
      simp [sizeTMax]
      omega
    omega
  constructor
  · simp [allocate, hne, operatorNew]
  · exact lt_of_lt_of_le (Nat.mod_lt _ hpow) hge

/-- C10 witness: with sizeof(T) = 8 and n = 2 ^ 61 > SIZE_MAX / 8, the
product 2 ^ 64 wraps to 0 and the request is smaller than required. -/
theorem allocate_overflow_wraps_witness :
    1 ≤ 8 ∧ 2 ^ 61 ≤ sizeTMax ∧ sizeTMax / 8 < 2 ^ 61
    ∧ 2 ^ 61 * 8 % 2 ^ sizeTWidth < 2 ^ 61 * 8 :=
  ⟨by decide, by decide, by decide,
   (allocate_overflow_wraps 8 (2 ^ 61) (HeapState.mk 0 [] [])
      (by decide) (by decide) (by decide)).2⟩

end mystl
